import Mathlib

/-!
Shallow embedding of the customer/address management logic of
src/src/pages/CustomerDetail.tsx (a React file holding two components,
CustomerDetail and CustomerList).  The React state pairs
(customers, addresses) are modelled as explicit lists threaded through the
handler functions; each handler invocation receives the single current
timestamp `now : Nat` standing for the instant of the event (the source
reads the clock via Date.now() / new Date().toISOString() inside the
handler).  Timestamps are modelled as naturals: the source stores ISO-8601
UTC strings, whose lexicographic order agrees with chronological order.
-/

/-- Modelled from the spec: the Customer record of the data model (§3);
the type declaration lives in src/data/mockData.ts which is not part of
the sources, but every field below is used by the code in
CustomerDetail.tsx. -/
structure Customer where
  id : String
  firstName : String
  lastName : String
  phoneNumber : String
  createdAt : Nat
  updatedAt : Nat
deriving DecidableEq, Repr

/-- Modelled from the spec: the Address record of the data model (§3). -/
structure Address where
  id : String
  customerId : String
  line1 : String
  line2 : String
  city : String
  state : String
  postalCode : String
  country : String
  isDefault : Bool
deriving DecidableEq, Repr

/-- Payload of the customer form: Omit of Customer over id, createdAt,
updatedAt (source line 44). -/
structure CustomerData where
  firstName : String
  lastName : String
  phoneNumber : String
deriving DecidableEq, Repr

/-- Payload of the address form: Omit of Address over id (source line 68). -/
structure AddressData where
  customerId : String
  line1 : String
  line2 : String
  city : String
  state : String
  postalCode : String
  country : String
  isDefault : Bool
deriving DecidableEq, Repr

namespace CustomerDetail

/-- Source lines 113-117 (handleSetDefaultAddress): map over all addresses,
setting isDefault to (id equals the chosen addressId) on the addresses of
the current customer and keeping isDefault unchanged on all others.  The
source reads the customer id from the enclosing component; here it is the
explicit argument cid. -/
def handleSetDefaultAddress (addresses : List Address) (cid aid : String) :
    List Address :=
  addresses.map fun addr =>
    { addr with isDefault := if addr.customerId == cid then addr.id == aid
                             else addr.isDefault }

/-- Source lines 68-95 (handleSaveAddress): with an address being edited,
merge the form data over it; otherwise append a fresh address whose id is
Date.now().toString(). -/
def handleSaveAddress (addresses : List Address)
    (editingAddress : Option Address) (addressData : AddressData)
    (now : Nat) : List Address :=
  match editingAddress with
  | some editing =>
      addresses.map fun addr =>
        if addr.id == editing.id then
          { id := addr.id
            customerId := addressData.customerId
            line1 := addressData.line1
            line2 := addressData.line2
            city := addressData.city
            state := addressData.state
            postalCode := addressData.postalCode
            country := addressData.country
            isDefault := addressData.isDefault }
        else addr
  | none =>
      addresses ++
        [{ id := toString now
           customerId := addressData.customerId
           line1 := addressData.line1
           line2 := addressData.line2
           city := addressData.city
           state := addressData.state
           postalCode := addressData.postalCode
           country := addressData.country
           isDefault := addressData.isDefault }]

/-- Source lines 44-55 (handleUpdateCustomer): merge the form data into the
customer whose id matches and refresh its updatedAt; all other customers
pass through unchanged. -/
def handleUpdateCustomer (customers : List Customer) (cid : String)
    (customerData : CustomerData) (now : Nat) : List Customer :=
  customers.map fun c =>
    if c.id == cid then
      { c with firstName := customerData.firstName
               lastName := customerData.lastName
               phoneNumber := customerData.phoneNumber
               updatedAt := now }
    else c

/-- Source lines 57-66 (handleDeleteCustomer of the detail page): after the
confirmation prompt the handler only shows a toast and navigates back to
the list route; it never calls setCustomers or setAddresses, so the store
is left exactly as it was. -/
def handleDeleteCustomer (store : List Customer × List Address) :
    List Customer × List Address :=
  store

end CustomerDetail

namespace CustomerList

/-- Source lines 364-393 (handleSaveCustomer): with a customer being
edited, merge the form data over it and refresh updatedAt; otherwise
prepend a fresh customer with id Date.now().toString() and equal
createdAt/updatedAt. -/
def handleSaveCustomer (customers : List Customer)
    (editingCustomer : Option Customer) (customerData : CustomerData)
    (now : Nat) : List Customer :=
  match editingCustomer with
  | some editing =>
      customers.map fun c =>
        if c.id == editing.id then
          { c with firstName := customerData.firstName
                   lastName := customerData.lastName
                   phoneNumber := customerData.phoneNumber
                   updatedAt := now }
        else c
  | none =>
      { id := toString now
        firstName := customerData.firstName
        lastName := customerData.lastName
        phoneNumber := customerData.phoneNumber
        createdAt := now
        updatedAt := now } :: customers

/-- Source lines 400-410 (handleDeleteCustomer of the list page): drop the
customer with the given id from the customer collection and drop every
address whose customerId equals it, in the same handler invocation. -/
def handleDeleteCustomer (customers : List Customer)
    (addresses : List Address) (customerId : String) :
    List Customer × List Address :=
  (customers.filter fun c => !(c.id == customerId),
   addresses.filter fun addr => !(addr.customerId == customerId))

end CustomerList

/-- Helper predicate: the address belongs to customer cid and is flagged
default. -/
def defaultOf (cid : String) (a : Address) : Bool :=
  a.customerId == cid && a.isDefault

theorem countP_le_one_of_nodup_ids (aid : String) {l : List Address}
    (h : (l.map Address.id).Nodup) (p : Address → Bool)
    (hp : ∀ a, p a = true → a.id = aid) : l.countP p ≤ 1 := by
  induction l with
  | nil => simp
  | cons b l ih =>
      simp only [List.map_cons, List.nodup_cons, List.mem_map] at h
      rw [List.countP_cons]
      by_cases hb : p b = true
      · have hrest : l.countP p = 0 := by
          rw [List.countP_eq_zero]
          intro a ha hpa
          exact h.1 ⟨a, ha, (hp a hpa).trans (hp b hb).symm⟩
        simp [hrest, hb]
      · have hb' : p b = false := by
          cases hpb : p b
          · rfl
          · exact absurd hpb hb
        simpa [hb'] using ih h.2

/-- C1: after handleSetDefaultAddress, every address of the customer has
isDefault equal to (its id equals the chosen addressId); and when the
chosen addressId belongs to one of the customer's addresses and address
ids are pairwise distinct, exactly one address of that customer is flagged
default afterwards, namely the chosen one. -/
theorem setDefault_single_default (addresses : List Address)
    (cid aid : String) :
    (∀ a ∈ CustomerDetail.handleSetDefaultAddress addresses cid aid,
        a.customerId = cid → (a.isDefault = true ↔ a.id = aid)) ∧
    ((addresses.map Address.id).Nodup →
      (∃ a ∈ addresses, a.customerId = cid ∧ a.id = aid) →
      ((CustomerDetail.handleSetDefaultAddress addresses cid aid).countP
          (defaultOf cid) = 1 ∧
       ∀ a ∈ (CustomerDetail.handleSetDefaultAddress addresses cid
                aid).filter (defaultOf cid), a.id = aid)) := by
  constructor
  · intro a ha hcid
    simp only [CustomerDetail.handleSetDefaultAddress, List.mem_map] at ha
    obtain ⟨b, _, rfl⟩ := ha
    simp only at hcid
    simp [hcid, beq_iff_eq]
  · intro hnodup ⟨w, hw, hwcid, hwid⟩
    have hkey : ∀ b : Address,
        defaultOf cid
          { b with isDefault := if b.customerId == cid then b.id == aid
                                else b.isDefault } =
        (b.customerId == cid && b.id == aid) := by
      intro b
      by_cases hb : b.customerId = cid
      · simp [defaultOf, hb]
      · have hb' : (b.customerId == cid) = false := by simpa using hb
        simp [defaultOf, hb']
    constructor
    · rw [CustomerDetail.handleSetDefaultAddress, List.countP_map]
      have hc1 : addresses.countP
          (fun b => b.customerId == cid && b.id == aid) ≤ 1 := by
        refine countP_le_one_of_nodup_ids aid hnodup _ ?_
        intro a hpa
        simp only [Bool.and_eq_true, beq_iff_eq] at hpa
        exact hpa.2
      have hc2 : 0 < addresses.countP
          (fun b => b.customerId == cid && b.id == aid) := by
        rw [List.countP_pos_iff]
        exact ⟨w, hw, by simp [hwcid, hwid]⟩
      have heq : addresses.countP
          ((defaultOf cid) ∘ fun addr =>
            { addr with
              isDefault := if addr.customerId == cid then addr.id == aid
                           else addr.isDefault }) =
          addresses.countP (fun b => b.customerId == cid && b.id == aid) := by
        apply List.countP_congr
        intro b _
        rw [Function.comp_apply, hkey b]
      omega
    · intro a ha
      rw [List.mem_filter] at ha
      obtain ⟨hmem, hdef⟩ := ha
      simp only [CustomerDetail.handleSetDefaultAddress, List.mem_map]
        at hmem
      obtain ⟨b, _, rfl⟩ := hmem
      rw [hkey b] at hdef
      simp only [Bool.and_eq_true, beq_iff_eq] at hdef
      exact hdef.2

/-- Witness for setDefault_single_default at a concrete two-address store. -/
theorem setDefault_single_default_witness :
    (CustomerDetail.handleSetDefaultAddress
        [{ id := "a1", customerId := "c1", line1 := "", line2 := "",
           city := "Pune", state := "MH", postalCode := "", country := "",
           isDefault := true },
         { id := "a2", customerId := "c1", line1 := "", line2 := "",
           city := "Mumbai", state := "MH", postalCode := "", country := "",
           isDefault := false }] "c1" "a2").countP (defaultOf "c1") = 1 := by
  have h := (setDefault_single_default
    [{ id := "a1", customerId := "c1", line1 := "", line2 := "",
       city := "Pune", state := "MH", postalCode := "", country := "",
       isDefault := true },
     { id := "a2", customerId := "c1", line1 := "", line2 := "",
       city := "Mumbai", state := "MH", postalCode := "", country := "",
       isDefault := false }] "c1" "a2").2 (by decide)
    ⟨{ id := "a2", customerId := "c1", line1 := "", line2 := "",
       city := "Mumbai", state := "MH", postalCode := "", country := "",
       isDefault := false }, by decide, by decide, by decide⟩
  exact h.1

/-- C10: handleSetDefaultAddress leaves every address of a different
customer unchanged (same entity at the same position), and when the chosen
addressId belongs to none of the customer's addresses the customer is left
with zero default addresses. -/
theorem setDefault_frame (addresses : List Address) (cid aid : String) :
    ((CustomerDetail.handleSetDefaultAddress addresses cid aid).length =
      addresses.length) ∧
    (∀ i (h : i < addresses.length),
      (addresses.get ⟨i, h⟩).customerId ≠ cid →
      (CustomerDetail.handleSetDefaultAddress addresses cid aid).get
          ⟨i, by simpa [CustomerDetail.handleSetDefaultAddress] using h⟩ =
        addresses.get ⟨i, h⟩) ∧
    ((∀ a ∈ addresses, a.customerId = cid → a.id ≠ aid) →
      (CustomerDetail.handleSetDefaultAddress addresses cid aid).countP
        (defaultOf cid) = 0) := by
  refine ⟨by simp [CustomerDetail.handleSetDefaultAddress], ?_, ?_⟩
  · intro i h hne
    have hfalse : ((addresses.get ⟨i, h⟩).customerId == cid) = false := by
      simpa using hne
    simp only [List.get_eq_getElem] at hfalse
    simp only [CustomerDetail.handleSetDefaultAddress, List.get_eq_getElem,
      List.getElem_map, hfalse, Bool.false_eq_true, if_false]
  · intro hnone
    rw [CustomerDetail.handleSetDefaultAddress, List.countP_map,
      List.countP_eq_zero]
    intro a ha
    simp only [Function.comp, defaultOf]
    by_cases hc : a.customerId = cid
    · have : (a.id == aid) = false := by simpa using hnone a ha hc
      simp [hc, this]
    · have : (a.customerId == cid) = false := by simpa using hc
      simp [this, hc]

/-- Witness for setDefault_frame: the other customer's address is untouched
and a missing addressId leaves zero defaults. -/
theorem setDefault_frame_witness :
    (CustomerDetail.handleSetDefaultAddress
        [{ id := "a1", customerId := "c2", line1 := "", line2 := "",
           city := "Pune", state := "MH", postalCode := "", country := "",
           isDefault := true }] "c1" "zzz").get ⟨0, by decide⟩ =
      { id := "a1", customerId := "c2", line1 := "", line2 := "",
        city := "Pune", state := "MH", postalCode := "", country := "",
        isDefault := true } ∧
    (CustomerDetail.handleSetDefaultAddress
        [{ id := "a1", customerId := "c2", line1 := "", line2 := "",
           city := "Pune", state := "MH", postalCode := "", country := "",
           isDefault := true }] "c1" "zzz").countP (defaultOf "c1") = 0 := by
  refine ⟨?_, ?_⟩
  · exact (setDefault_frame
      [{ id := "a1", customerId := "c2", line1 := "", line2 := "",
         city := "Pune", state := "MH", postalCode := "", country := "",
         isDefault := true }] "c1" "zzz").2.1 0 (by decide) (by decide)
  · exact (setDefault_frame
      [{ id := "a1", customerId := "c2", line1 := "", line2 := "",
         city := "Pune", state := "MH", postalCode := "", country := "",
         isDefault := true }] "c1" "zzz").2.2 (by decide)

/-- Sample customer used in concrete instantiations. -/
def ashaC : Customer :=
  { id := "1", firstName := "Asha", lastName := "Rao",
    phoneNumber := "9990001111", createdAt := 10, updatedAt := 10 }

/-- Sample address of ashaC used in concrete instantiations. -/
def puneA : Address :=
  { id := "a1", customerId := "1", line1 := "MG Road", line2 := "",
    city := "Pune", state := "MH", postalCode := "411001", country := "IN",
    isDefault := false }

/-- Sample form data used in concrete instantiations. -/
def ashaD : CustomerData :=
  { firstName := "Asha", lastName := "Rao", phoneNumber := "8880001111" }

/-- C2 (code-bug observation): the delete handler of the detail page
(source lines 57-66) leaves the store untouched — after the call the
customer is still in the collection and its address still references it —
while the delete handler of the list page (source lines 400-410) removes
both the customer and its addresses, which is what the detail handler's
own toast text announces. -/
theorem detailDelete_leaves_store :
    CustomerDetail.handleDeleteCustomer ([ashaC], [puneA]) =
      ([ashaC], [puneA]) ∧
    ashaC ∈ (CustomerDetail.handleDeleteCustomer ([ashaC], [puneA])).1 ∧
    puneA ∈ (CustomerDetail.handleDeleteCustomer ([ashaC], [puneA])).2 ∧
    puneA.customerId = ashaC.id ∧
    CustomerList.handleDeleteCustomer [ashaC] [puneA] ashaC.id = ([], []) :=
  ⟨rfl, by decide, by decide, by decide, by decide⟩

/-- C9: the add branch of handleSaveAddress appends exactly one new
address, carrying the freshly assigned id and the customerId given in the
form data, and every pre-existing address (its isDefault flag included) is
left unchanged at its position. -/
theorem createAddress_frame (addresses : List Address) (d : AddressData)
    (now : Nat) :
    (CustomerDetail.handleSaveAddress addresses none d now).length =
      addresses.length + 1 ∧
    (CustomerDetail.handleSaveAddress addresses none d now).take
      addresses.length = addresses ∧
    (CustomerDetail.handleSaveAddress addresses none d now).getLast? =
      some { id := toString now, customerId := d.customerId,
             line1 := d.line1, line2 := d.line2, city := d.city,
             state := d.state, postalCode := d.postalCode,
             country := d.country, isDefault := d.isDefault } := by
  refine ⟨by simp [CustomerDetail.handleSaveAddress], ?_, ?_⟩
  · rw [CustomerDetail.handleSaveAddress]
    exact List.take_left addresses
        [{ id := toString now, customerId := d.customerId,
           line1 := d.line1, line2 := d.line2, city := d.city,
           state := d.state, postalCode := d.postalCode,
           country := d.country, isDefault := d.isDefault }]
  · simp [CustomerDetail.handleSaveAddress]

/-- C7: handleUpdateCustomer merges the form data into each customer whose
id matches, refreshing only its updatedAt (id and createdAt are kept, as
the record update shows), leaves every other customer unchanged at its
position, is the identity on the collection when no customer carries the
id, and coincides with the update branch of the list page's
handleSaveCustomer. -/
theorem updateCustomer_frame (customers : List Customer) (cid : String)
    (d : CustomerData) (now : Nat) :
    ((CustomerDetail.handleUpdateCustomer customers cid d now).length =
      customers.length) ∧
    (∀ i (h : i < customers.length),
      ((customers.get ⟨i, h⟩).id = cid →
        (CustomerDetail.handleUpdateCustomer customers cid d now).get
            ⟨i, by simpa [CustomerDetail.handleUpdateCustomer] using h⟩ =
          { customers.get ⟨i, h⟩ with
              firstName := d.firstName
              lastName := d.lastName
              phoneNumber := d.phoneNumber
              updatedAt := now }) ∧
      ((customers.get ⟨i, h⟩).id ≠ cid →
        (CustomerDetail.handleUpdateCustomer customers cid d now).get
            ⟨i, by simpa [CustomerDetail.handleUpdateCustomer] using h⟩ =
          customers.get ⟨i, h⟩)) ∧
    ((∀ c ∈ customers, c.id ≠ cid) →
      CustomerDetail.handleUpdateCustomer customers cid d now = customers) ∧
    (∀ e : Customer,
      CustomerList.handleSaveCustomer customers (some e) d now =
        CustomerDetail.handleUpdateCustomer customers e.id d now) := by
  refine ⟨by simp [CustomerDetail.handleUpdateCustomer], ?_, ?_, ?_⟩
  · intro i h
    constructor
    · intro hid
      have hid' : ((customers.get ⟨i, h⟩).id == cid) = true := by
        simpa using hid
      simp only [List.get_eq_getElem] at hid'
      simp only [CustomerDetail.handleUpdateCustomer, List.get_eq_getElem,
        List.getElem_map, hid', if_true]
    · intro hid
      have hid' : ((customers.get ⟨i, h⟩).id == cid) = false := by
        simpa using hid
      simp only [List.get_eq_getElem] at hid'
      simp only [CustomerDetail.handleUpdateCustomer, List.get_eq_getElem,
        List.getElem_map, hid', Bool.false_eq_true, if_false]
  · intro hnone
    rw [CustomerDetail.handleUpdateCustomer]
    conv_rhs => rw [← List.map_id customers]
    apply List.map_congr_left
    intro c hc
    have : (c.id == cid) = false := by simpa using hnone c hc
    simp [this]
  · intro e
    rfl

/-- Witness for updateCustomer_frame at a one-customer store: the matching
customer is merged (createdAt kept, updatedAt refreshed) and an absent id
leaves the collection as it was. -/
theorem updateCustomer_frame_witness :
    (CustomerDetail.handleUpdateCustomer [ashaC] "1" ashaD 25).get
        ⟨0, by decide⟩ =
      { ashaC with firstName := ashaD.firstName, lastName := ashaD.lastName,
                   phoneNumber := ashaD.phoneNumber, updatedAt := 25 } ∧
    CustomerDetail.handleUpdateCustomer [ashaC] "zzz" ashaD 25 = [ashaC] := by
  constructor
  · exact ((updateCustomer_frame [ashaC] "1" ashaD 25).2.1 0 (by decide)).1
      (by decide)
  · exact (updateCustomer_frame [ashaC] "zzz" ashaD 25).2.2.1 (by decide)

/-- C6: the add branch of handleSaveCustomer prepends the new customer
(head is the new record, tail is the previous collection) with equal
createdAt and updatedAt; a subsequent run of the update branch keeps every
customer's createdAt and, when the clock did not go backwards, never
decreases its updatedAt. -/
theorem createCustomer_timestamps (customers : List Customer)
    (d : CustomerData) (now : Nat) :
    ((CustomerList.handleSaveCustomer customers none d now).head?.map
        Customer.createdAt =
     (CustomerList.handleSaveCustomer customers none d now).head?.map
        Customer.updatedAt) ∧
    ((CustomerList.handleSaveCustomer customers none d now).head? =
      some { id := toString now, firstName := d.firstName,
             lastName := d.lastName, phoneNumber := d.phoneNumber,
             createdAt := now, updatedAt := now }) ∧
    ((CustomerList.handleSaveCustomer customers none d now).tail =
      customers) ∧
    (∀ (e : Customer) (d2 : CustomerData) (later i : Nat)
        (h : i < customers.length),
      (((CustomerList.handleSaveCustomer customers (some e) d2 later).get
          ⟨i, by simpa [CustomerList.handleSaveCustomer] using h⟩).createdAt =
        (customers.get ⟨i, h⟩).createdAt) ∧
      ((customers.get ⟨i, h⟩).updatedAt ≤ later →
        (customers.get ⟨i, h⟩).updatedAt ≤
          ((CustomerList.handleSaveCustomer customers (some e) d2
              later).get
            ⟨i, by simpa [CustomerList.handleSaveCustomer] using h⟩).updatedAt)) := by
  refine ⟨rfl, rfl, rfl, ?_⟩
  intro e d2 later i h
  by_cases hid : (customers.get ⟨i, h⟩).id = e.id
  · have hid' : ((customers.get ⟨i, h⟩).id == e.id) = true := by
      simpa using hid
    simp only [List.get_eq_getElem] at hid'
    constructor
    · simp only [CustomerList.handleSaveCustomer, List.get_eq_getElem,
        List.getElem_map, hid', if_true]
    · intro hle
      simpa only [CustomerList.handleSaveCustomer, List.get_eq_getElem,
        List.getElem_map, hid', if_true] using hle
  · have hid' : ((customers.get ⟨i, h⟩).id == e.id) = false := by
      simpa using hid
    simp only [List.get_eq_getElem] at hid'
    constructor
    · simp only [CustomerList.handleSaveCustomer, List.get_eq_getElem,
        List.getElem_map, hid', Bool.false_eq_true, if_false]
    · intro _
      simp only [CustomerList.handleSaveCustomer, List.get_eq_getElem,
        List.getElem_map, hid', Bool.false_eq_true, if_false]
      exact le_rfl

/-- Witness for createCustomer_timestamps: create at time 30, then update
at time 42; createdAt survives and updatedAt does not decrease. -/
theorem createCustomer_timestamps_witness :
    ((CustomerList.handleSaveCustomer [ashaC] (some ashaC) ashaD 42).get
        ⟨0, by decide⟩).createdAt = ashaC.createdAt ∧
    ashaC.updatedAt ≤
      ((CustomerList.handleSaveCustomer [ashaC] (some ashaC) ashaD 42).get
        ⟨0, by decide⟩).updatedAt := by
  have h := (createCustomer_timestamps [ashaC] ashaD 30).2.2.2 ashaC ashaD
    42 0 (by decide)
  exact ⟨h.1, h.2 (by decide)⟩

/-- Model of the JavaScript toLowerCase call: lower-case each character. -/
def jsToLower (s : String) : String := ⟨s.data.map Char.toLower⟩

/-- Model of the JavaScript String.includes call: the second string occurs
contiguously inside the first. -/
def jsIncludes (s sub : String) : Bool := decide (sub.data <:+: s.data)

namespace CustomerList

/-- Source lines 338-355 (filteredCustomers): keep the customers matching
the free-text term (case-insensitively on firstName and lastName, as typed
on phoneNumber) and whose owned addresses match the city and state
filters; empty or "all" filters match everything. -/
def filteredCustomers (customers : List Customer) (addresses : List Address)
    (searchTerm cityFilter stateFilter : String) : List Customer :=
  customers.filter fun customer =>
    let matchesSearch := searchTerm == "" ||
      jsIncludes (jsToLower customer.firstName) (jsToLower searchTerm) ||
      jsIncludes (jsToLower customer.lastName) (jsToLower searchTerm) ||
      jsIncludes customer.phoneNumber searchTerm
    let customerAddresses := addresses.filter fun addr =>
      addr.customerId == customer.id
    let matchesCity := cityFilter == "" || cityFilter == "all" ||
      customerAddresses.any fun addr => addr.city == cityFilter
    let matchesState := stateFilter == "" || stateFilter == "all" ||
      customerAddresses.any fun addr => addr.state == stateFilter
    matchesSearch && matchesCity && matchesState

end CustomerList

/-- Modelled from the spec (for comparison with the source): the filtering
contract of §4.2 with case-insensitive matching on all three text fields,
phoneNumber included. -/
def specFilteredCustomers (customers : List Customer)
    (addresses : List Address)
    (searchTerm cityFilter stateFilter : String) : List Customer :=
  customers.filter fun customer =>
    let matchesSearch := searchTerm == "" ||
      jsIncludes (jsToLower customer.firstName) (jsToLower searchTerm) ||
      jsIncludes (jsToLower customer.lastName) (jsToLower searchTerm) ||
      jsIncludes (jsToLower customer.phoneNumber) (jsToLower searchTerm)
    let customerAddresses := addresses.filter fun addr =>
      addr.customerId == customer.id
    let matchesCity := cityFilter == "" || cityFilter == "all" ||
      customerAddresses.any fun addr => addr.city == cityFilter
    let matchesState := stateFilter == "" || stateFilter == "all" ||
      customerAddresses.any fun addr => addr.state == stateFilter
    matchesSearch && matchesCity && matchesState

/-- Propositional form of the condition filteredCustomers actually
decides: the term is empty or contained case-insensitively in firstName or
lastName or as typed in phoneNumber, and the city and state filters are
empty, "all", or matched exactly by some owned address. -/
def matchesAmended (addresses : List Address)
    (searchTerm cityFilter stateFilter : String) (c : Customer) : Prop :=
  (searchTerm = "" ∨
     (jsToLower searchTerm).data <:+: (jsToLower c.firstName).data ∨
     (jsToLower searchTerm).data <:+: (jsToLower c.lastName).data ∨
     searchTerm.data <:+: c.phoneNumber.data) ∧
  (cityFilter = "" ∨ cityFilter = "all" ∨
     ∃ a ∈ addresses, a.customerId = c.id ∧ a.city = cityFilter) ∧
  (stateFilter = "" ∨ stateFilter = "all" ∨
     ∃ a ∈ addresses, a.customerId = c.id ∧ a.state = stateFilter)

/-- Source line 326: the fixed page size. -/
def itemsPerPage : Nat := 6

/-- Model of the JavaScript Array.slice call for nonnegative bounds. -/
def jsSlice {α : Type} (l : List α) (b e : Nat) : List α :=
  (l.drop b).take (e - b)

/-- Source line 358 (totalPages): Math.ceil of the exact quotient
length / itemsPerPage. -/
def totalPages {α : Type} (l : List α) : Nat :=
  ⌈(l.length : ℚ) / (itemsPerPage : ℚ)⌉₊

/-- Source lines 359-362 (paginatedCustomers): the slice from
(currentPage - 1) * itemsPerPage to currentPage * itemsPerPage. -/
def paginatedCustomers {α : Type} (l : List α) (currentPage : Nat) :
    List α :=
  jsSlice l ((currentPage - 1) * itemsPerPage) (currentPage * itemsPerPage)

/-- First-occurrence deduplication: the semantics of building a JavaScript
Set from a list and spreading it back to an array. -/
def jsSetOfList {α : Type} [DecidableEq α] : List α → List α
  | [] => []
  | a :: l => a :: jsSetOfList (l.filter fun b => b ≠ a)
termination_by l => l.length
decreasing_by
  simp only [List.length_cons]
  exact Nat.lt_succ_of_le (List.length_filter_le _ _)

/-- Model of the JavaScript default Array.sort on strings (code-unit
ascending order). -/
def jsSortStrings (l : List String) : List String :=
  l.insertionSort (· ≤ ·)

/-- Source lines 331-335 (cities of the useMemo): distinct city values of
all addresses, sorted. -/
def cities (addresses : List Address) : List String :=
  jsSortStrings (jsSetOfList (addresses.map Address.city))

/-- Source lines 331-335 (states of the useMemo): distinct state values of
all addresses, sorted. -/
def states (addresses : List Address) : List String :=
  jsSortStrings (jsSetOfList (addresses.map Address.state))

theorem jsSetOfList_mem {α : Type} [DecidableEq α] (l : List α) (a : α) :
    a ∈ jsSetOfList l ↔ a ∈ l := by
  induction l using jsSetOfList.induct with
  | case1 => simp [jsSetOfList]
  | case2 b l ih =>
      rw [jsSetOfList]
      by_cases hab : a = b
      · subst hab
        simp
      · simp only [List.mem_cons, ih, List.mem_filter]
        constructor
        · rintro (h | ⟨h, _⟩)
          · exact Or.inl h
          · exact Or.inr h
        · rintro (h | h)
          · exact Or.inl h
          · exact Or.inr ⟨h, by simpa using hab⟩

theorem jsSetOfList_nodup {α : Type} [DecidableEq α] (l : List α) :
    (jsSetOfList l).Nodup := by
  induction l using jsSetOfList.induct with
  | case1 => simp [jsSetOfList]
  | case2 b l ih =>
      rw [jsSetOfList]
      refine List.nodup_cons.mpr ⟨?_, ih⟩
      intro hmem
      rw [jsSetOfList_mem, List.mem_filter] at hmem
      simpa using hmem.2

/-- C8: the city facet and the state facet are sorted ascending,
duplicate-free, and contain exactly the city and state values occurring
among all addresses. -/
theorem facets_sorted_nodup (addresses : List Address) :
    (cities addresses).Sorted (· ≤ ·) ∧ (cities addresses).Nodup ∧
    (∀ s : String, s ∈ cities addresses ↔
        s ∈ addresses.map Address.city) ∧
    (states addresses).Sorted (· ≤ ·) ∧ (states addresses).Nodup ∧
    (∀ s : String, s ∈ states addresses ↔
        s ∈ addresses.map Address.state) := by
  refine ⟨List.sorted_insertionSort _ _,
    (List.perm_insertionSort _ _).nodup_iff.mpr (jsSetOfList_nodup _),
    fun s => (List.perm_insertionSort _ _).mem_iff.trans
      (jsSetOfList_mem _ s),
    List.sorted_insertionSort _ _,
    (List.perm_insertionSort _ _).nodup_iff.mpr (jsSetOfList_nodup _),
    fun s => (List.perm_insertionSort _ _).mem_iff.trans
      (jsSetOfList_mem _ s)⟩

namespace CustomerList

/-- Source lines 320-325: the view state of the list page that searching,
filtering and paging read and write. -/
structure ViewState where
  searchTerm : String
  cityFilter : String
  stateFilter : String
  currentPage : Nat
deriving DecidableEq, Repr

/-- User steps the list page binds (source lines 412-417, 487-499 and the
pagination buttons): the SearchAndFilter component receives the raw
setters setSearchTerm, setCityFilter and setStateFilter, the clear button
is bound to handleClearFilters, and the page buttons call setCurrentPage. -/
inductive Step where
  | setSearch (s : String)
  | setCity (s : String)
  | setState (s : String)
  | clearFilters
  | setPage (p : Nat)
deriving DecidableEq, Repr

/-- Transition function: each step performs exactly the state updates its
source handler performs; only handleClearFilters (lines 412-417) writes
currentPage together with the filters. -/
def step (v : ViewState) : Step → ViewState
  | Step.setSearch s => { v with searchTerm := s }
  | Step.setCity s => { v with cityFilter := s }
  | Step.setState s => { v with stateFilter := s }
  | Step.clearFilters =>
      { searchTerm := "", cityFilter := "", stateFilter := "",
        currentPage := 1 }
  | Step.setPage p => { v with currentPage := p }

/-- Initial state (source lines 320-325): empty term and filters, page 1. -/
def initState : ViewState :=
  { searchTerm := "", cityFilter := "", stateFilter := "", currentPage := 1 }

/-- Runs a list of steps from a state. -/
def stepAll (v : ViewState) (l : List Step) : ViewState := l.foldl step v

end CustomerList

/-- C5 as stated is false on the code: from the initial state the user can
move to page 3 and then change the search term; that step changes the
search term yet leaves the current page at 3, not 1. -/
theorem searchChange_keeps_page_cex :
    (CustomerList.stepAll CustomerList.initState
        [CustomerList.Step.setPage 3,
         CustomerList.Step.setSearch "x"]).currentPage = 3 ∧
    (CustomerList.stepAll CustomerList.initState
        [CustomerList.Step.setPage 3,
         CustomerList.Step.setSearch "x"]).searchTerm = "x" ∧
    (CustomerList.stepAll CustomerList.initState
        [CustomerList.Step.setPage 3]).searchTerm = "" :=
  ⟨rfl, rfl, rfl⟩

/-- C5 amended: the clear-filters action resets the current page to 1 (and
empties all three filters), while the individual search, city and state
setters leave the current page unchanged. -/
theorem filterSteps_page_behavior (v : CustomerList.ViewState)
    (s : String) :
    (CustomerList.step v CustomerList.Step.clearFilters).currentPage = 1 ∧
    (CustomerList.step v (CustomerList.Step.setSearch s)).currentPage =
      v.currentPage ∧
    (CustomerList.step v (CustomerList.Step.setCity s)).currentPage =
      v.currentPage ∧
    (CustomerList.step v (CustomerList.Step.setState s)).currentPage =
      v.currentPage :=
  ⟨rfl, rfl, rfl, rfl⟩

/-- Sample customer whose phone number holds letters, separating the two
readings of phone-number matching. -/
def leeC : Customer :=
  { id := "2", firstName := "Lee", lastName := "Kim",
    phoneNumber := "ABC", createdAt := 0, updatedAt := 0 }

/-- C3 as stated is false on the code: with term "abc" the claimed
case-insensitive reading keeps leeC, whose phone number "ABC" contains
"abc" up to case, but the code matches the phone number case-sensitively
and drops the customer. -/
theorem filteredCustomers_phone_case_cex :
    CustomerList.filteredCustomers [leeC] [] "abc" "" "" = [] ∧
    specFilteredCustomers [leeC] [] "abc" "" "" = [leeC] := by
  constructor <;> decide

/-- C3 amended: filteredCustomers returns the subsequence (order
preserved) of customers satisfying the conjunction of the three
conditions, with the term matched case-insensitively against firstName
and lastName but case-sensitively against phoneNumber; with empty term,
city and state it returns the input collection unchanged. -/
theorem filteredCustomers_spec (customers : List Customer)
    (addresses : List Address) (t cf sf : String) :
    List.Sublist (CustomerList.filteredCustomers customers addresses t cf
      sf) customers ∧
    (∀ c, c ∈ CustomerList.filteredCustomers customers addresses t cf sf ↔
      c ∈ customers ∧ matchesAmended addresses t cf sf c) ∧
    CustomerList.filteredCustomers customers addresses "" "" "" =
      customers := by
  refine ⟨List.filter_sublist _, ?_, ?_⟩
  · intro c
    rw [CustomerList.filteredCustomers, List.mem_filter]
    constructor
    · rintro ⟨hmem, hc⟩
      refine ⟨hmem, ?_⟩
      simp only [Bool.and_eq_true, Bool.or_eq_true, beq_iff_eq,
        jsIncludes, decide_eq_true_eq, List.any_eq_true, List.mem_filter]
        at hc
      obtain ⟨⟨hs, hcity⟩, hstate⟩ := hc
      refine ⟨?_, ?_, ?_⟩
      · rcases hs with (h | h) | h
        · rcases h with h | h
          · exact Or.inl h
          · exact Or.inr (Or.inl h)
        · exact Or.inr (Or.inr (Or.inl h))
        · exact Or.inr (Or.inr (Or.inr h))
      · rcases hcity with (h | h) | ⟨a, ⟨ha, hac⟩, hcy⟩
        · exact Or.inl h
        · exact Or.inr (Or.inl h)
        · exact Or.inr (Or.inr ⟨a, ha, hac, hcy⟩)
      · rcases hstate with (h | h) | ⟨a, ⟨ha, hac⟩, hst⟩
        · exact Or.inl h
        · exact Or.inr (Or.inl h)
        · exact Or.inr (Or.inr ⟨a, ha, hac, hst⟩)
    · rintro ⟨hmem, hs, hcity, hstate⟩
      refine ⟨hmem, ?_⟩
      simp only [Bool.and_eq_true, Bool.or_eq_true, beq_iff_eq,
        jsIncludes, decide_eq_true_eq, List.any_eq_true, List.mem_filter]
      refine ⟨⟨?_, ?_⟩, ?_⟩
      · rcases hs with h | h | h | h
        · exact Or.inl (Or.inl (Or.inl h))
        · exact Or.inl (Or.inl (Or.inr h))
        · exact Or.inl (Or.inr h)
        · exact Or.inr h
      · rcases hcity with h | h | ⟨a, ha, hac, hcy⟩
        · exact Or.inl (Or.inl h)
        · exact Or.inl (Or.inr h)
        · exact Or.inr ⟨a, ⟨ha, hac⟩, hcy⟩
      · rcases hstate with h | h | ⟨a, ha, hac, hst⟩
        · exact Or.inl (Or.inl h)
        · exact Or.inl (Or.inr h)
        · exact Or.inr ⟨a, ⟨ha, hac⟩, hst⟩
  · rw [CustomerList.filteredCustomers]
    apply List.filter_eq_self.mpr
    intro c _
    simp

theorem totalPages_eq {α : Type} (l : List α) :
    totalPages l = (l.length + 5) / 6 := by
  rw [totalPages, itemsPerPage]
  have h6 : ((6 : ℕ) : ℚ) = (6 : ℚ) := by norm_num
  rw [h6]
  rcases Nat.eq_zero_or_pos l.length with h0 | hpos
  · rw [h0]
    norm_num
  · have hq1 : 1 ≤ (l.length + 5) / 6 := by omega
    rw [Nat.ceil_eq_iff (by omega)]
    refine ⟨?_, ?_⟩
    · rw [lt_div_iff₀ (by norm_num : (0 : ℚ) < 6)]
      exact_mod_cast (show ((l.length + 5) / 6 - 1) * 6 < l.length by omega)
    · rw [div_le_iff₀ (by norm_num : (0 : ℚ) < 6)]
      exact_mod_cast (show l.length ≤ ((l.length + 5) / 6) * 6 by omega)

theorem paginatedCustomers_length {α : Type} (l : List α) (p : Nat)
    (hp : 1 ≤ p) :
    (paginatedCustomers l p).length = min 6 (l.length - (p - 1) * 6) := by
  have h : p * 6 - (p - 1) * 6 = 6 := by omega
  simp [paginatedCustomers, jsSlice, itemsPerPage, h]

theorem paginatedCustomers_get {α : Type} (l : List α) (p i : Nat)
    (hi : i < (paginatedCustomers l p).length)
    (hl : (p - 1) * 6 + i < l.length) :
    (paginatedCustomers l p).get ⟨i, hi⟩ =
      l.get ⟨(p - 1) * 6 + i, hl⟩ := by
  simp only [paginatedCustomers, jsSlice, itemsPerPage,
    List.get_eq_getElem, List.getElem_take, List.getElem_drop]

/-- C4: the page count equals the ceiling of length / 6 (the closed form
(length + 5) / 6); a requested page of at least 1 holds at most 6 elements
taken in order from position (page - 1) * 6; and for a 13-element sequence
the page count is 3, page 3 holds exactly the 13th element, and page 1
holds the first 6. -/
theorem pagination_spec {α : Type} (l : List α) (p : Nat) :
    (totalPages l = (l.length + 5) / 6) ∧
    (1 ≤ p → (paginatedCustomers l p).length =
      min 6 (l.length - (p - 1) * 6)) ∧
    (∀ i (hi : i < (paginatedCustomers l p).length)
        (hl : (p - 1) * 6 + i < l.length),
      (paginatedCustomers l p).get ⟨i, hi⟩ =
        l.get ⟨(p - 1) * 6 + i, hl⟩) ∧
    (∀ h13 : l.length = 13,
      totalPages l = 3 ∧
      paginatedCustomers l 3 = [l.get ⟨12, by omega⟩] ∧
      paginatedCustomers l 1 = l.take 6) := by
  refine ⟨totalPages_eq l, paginatedCustomers_length l p, ?_, ?_⟩
  · intro i hi hl
    exact paginatedCustomers_get l p i hi hl
  · intro h13
    refine ⟨by rw [totalPages_eq, h13], ?_, ?_⟩
    · apply List.ext_get
      · rw [paginatedCustomers_length l 3 (by norm_num),
          List.length_singleton]
        omega
      · intro i h1 h2
        have hi0 : i = 0 := by
          rw [paginatedCustomers_length l 3 (by norm_num)] at h1
          omega
        subst hi0
        rw [paginatedCustomers_get l 3 0 h1 (by omega)]
        simp only [List.get_eq_getElem, List.getElem_singleton]
    · simp [paginatedCustomers, jsSlice, itemsPerPage]

/-- Witness for pagination_spec at the 13-element sequence range 13. -/
theorem pagination_spec_witness :
    totalPages (List.range 13) = 3 ∧
    paginatedCustomers (List.range 13) 3 = [12] ∧
    paginatedCustomers (List.range 13) 1 = [0, 1, 2, 3, 4, 5] ∧
    (paginatedCustomers (List.range 13) 3).length = 1 := by
  have h := (pagination_spec (List.range 13) 3).2.2.2 (by simp)
  have h1 := (pagination_spec (List.range 13) 1).2.2.2 (by simp)
  have hlen := (pagination_spec (List.range 13) 3).2.1 (by norm_num)
  refine ⟨h.1, ?_, ?_, ?_⟩
  · rw [h.2.1]
    decide
  · rw [h1.2.2]
    decide
  · rw [hlen]
    decide
